import Mathlib

/-!
Verification of the optional-reference component of the `type_safe` repository
(`src/include/type_safe/optional_ref.hpp`).

The C++ class `reference_optional_storage<T>` stores a single nullable pointer
`T* pointer_`.  We model object identity with abstract addresses (`Addr := Nat`)
and the program heap as a total map `Mem α := Addr → α` from addresses to
values.  The nullable member `pointer_` becomes `Option Addr` with `none`
standing for `nullptr`.  Reference identity (`&x == &y` in C++) is equality of
addresses.  Operations that in C++ could in principle write through pointers
take the memory as an argument and return it, so that frame properties
("no object's value is changed") are bona-fide theorems about the embedding.

`basic_optional`, `optional<T>`, `make_optional` and `nullopt` live in
`optional.hpp`, which is not part of the sources; the spec describes the
container as an external collaborator that delegates `create_value`,
`destroy_value`, `has_value`, `get_value` and `get_value_or` to the storage
policy.  Those delegation shims are modelled from the spec and are marked as
such in their doc comments.
-/

namespace TypeSafe

/-- Abstract object addresses; `&obj` in the C++ source becomes the address of
`obj` in this model. -/
abbrev Addr := Nat

/-- The program heap: a total map from addresses to stored values. -/
abbrev Mem (α : Type) := Addr → α

/-- Embedding of `reference_optional_storage<T>` (optional_ref.hpp lines
21-96): the single data member is `T* pointer_`; `none` models `nullptr`. -/
structure ReferenceOptionalStorage where
  pointer_ : Option Addr
deriving DecidableEq, Repr

namespace ReferenceOptionalStorage

/-- Default constructor (line 41): `reference_optional_storage() : pointer_(nullptr)`. -/
def init : ReferenceOptionalStorage := ⟨none⟩

/-- `create_value(lvalue_reference obj)` (lines 46-49): body is
`pointer_ = &obj;`.  It performs no store through any pointer, so it does not
take or change the memory. -/
def create_value (_st : ReferenceOptionalStorage) (obj : Addr) :
    ReferenceOptionalStorage :=
  ⟨some obj⟩

/-- `destroy_value()` (lines 71-74): body is `pointer_ = nullptr;`. -/
def destroy_value (_st : ReferenceOptionalStorage) : ReferenceOptionalStorage :=
  ⟨none⟩

/-- `create_value(std::nullptr_t)` (lines 63-66): body is `destroy_value();`. -/
def create_value_null (st : ReferenceOptionalStorage) : ReferenceOptionalStorage :=
  st.destroy_value

/-- `has_value()` (lines 77-80): `return pointer_ != nullptr;`. -/
def has_value (st : ReferenceOptionalStorage) : Bool :=
  st.pointer_.isSome

/-- `get_value()` (lines 83-86): `return *pointer_;`.  The returned lvalue is
identified by its address, i.e. by `pointer_` itself; the `none` result models
the undefined behavior of dereferencing a null `pointer_`. -/
def get_value (st : ReferenceOptionalStorage) : Option Addr :=
  st.pointer_

/-- `get_value_or(lvalue_reference other)` (lines 89-92):
`return has_value() ? get_value() : other;` — when `has_value()` holds,
`pointer_` is `some a` and `get_value()` is the object at `a`. -/
def get_value_or (st : ReferenceOptionalStorage) (other : Addr) : Addr :=
  match st.pointer_ with
  | some a => a
  | none => other

/-- The converting `create_value(const basic_optional<reference_optional_storage<U>>&)`
(lines 54-60): body is `pointer_ = const_ref.has_value() ? &const_ref.value() : nullptr;`.
Per the spec the container's `has_value`/`value` delegate to the storage policy,
so `&const_ref.value()` is the source's `pointer_`. -/
def create_value_cross (_st src : ReferenceOptionalStorage) :
    ReferenceOptionalStorage :=
  ⟨if src.has_value then src.pointer_ else none⟩

end ReferenceOptionalStorage

/-- A C++ type that `reference_optional_storage` can be instantiated at:
a base type (identified by a code) together with its const qualification. -/
structure RefTarget where
  base : Nat
  isConst : Bool
deriving DecidableEq, Repr

/-- `std::remove_const<T>::type`. -/
def removeConst (t : RefTarget) : RefTarget := ⟨t.base, false⟩

/-- The `enable_if` guard on the converting `create_value` (lines 54-56): the
overload participates exactly when `std::is_same<U, typename
std::remove_const<T>::type>::value`, for receiver instantiated at `t` and
source instantiated at `u`. -/
def cross_create_enabled (t u : RefTarget) : Bool :=
  decide (u = removeConst t)

/-- The kinds of argument a caller can try to pass to `create_value`. -/
inductive CreateValueArg where
  | lvalue
  | nullptrArg
  | crossOptional (enabled : Bool)
  | rvalue
deriving DecidableEq, Repr

/-- Which `create_value` overloads exist and are usable (lines 46, 54, 63, 68):
lvalues and `nullptr` are accepted, the converting overload exactly when its
`enable_if` guard holds, and rvalues never — `create_value(T&&) = delete;`
(line 68) makes passing a temporary a compile-time error. -/
def create_value_accepts : CreateValueArg → Bool
  | .lvalue => true
  | .nullptrArg => true
  | .crossOptional enabled => enabled
  | .rvalue => false

/-- Modelled from the spec: `basic_optional` construction and assignment
(optional.hpp, not under src/) forward their argument to the storage policy's
`create_value`, so `optional_ref` construction/assignment accepts an argument
kind iff `create_value` does (the tests assert the resulting
`!std::is_constructible` / `!std::is_assignable` facts for rvalues). -/
def optional_ref_accepts (a : CreateValueArg) : Bool :=
  create_value_accepts a

/-- The `static_assert(!std::is_const<T>::value, ...)` guarding `move`
(line 134): `move` compiles exactly when the referenced type is not
const-qualified. -/
def move_compiles (t : RefTarget) : Bool :=
  !t.isConst

/-- A stored value that may have been left in a moved-from state by move
construction. -/
inductive MVal (β : Type) where
  | val : β → MVal β
  | moved : MVal β
deriving DecidableEq, Repr

/-- Modelled from the spec: the owning optional `optional<T>` (optional.hpp,
not under src/) either holds a value of its own or is empty (`nullopt`). -/
abbrev OptionalValue (β : Type) := Option β

/-- Modelled from the spec: assignment `optRef = y` for an lvalue `y`
(`basic_optional::operator=`, optional.hpp, not under src/) rebinds by
delegating to `create_value(lvalue_reference)`; the header's own documentation
(line 17) states "Assigning an optional will always change the target of the
reference."  The memory is returned unchanged because `create_value`'s body
(line 48) performs no store through any pointer. -/
def assign (st : ReferenceOptionalStorage) (m : Mem α) (y : Addr) :
    ReferenceOptionalStorage × Mem α :=
  (st.create_value y, m)

/-- Modelled from the spec: assignment `optRef = nullptr`
(`basic_optional::operator=`, optional.hpp, not under src/) delegates to
`create_value(std::nullptr_t)`, whose body (line 65) only clears `pointer_`. -/
def assign_null (st : ReferenceOptionalStorage) (m : Mem α) :
    ReferenceOptionalStorage × Mem α :=
  (st.create_value_null, m)

/-- `ref(T* ptr)` (lines 105-109): `return ptr ? optional_ref<T>(*ptr) : nullopt;`.
Constructing the optional from the lvalue `*ptr` delegates (per the spec's
container contract) to `create_value` on a fresh storage; `nullopt` yields the
default-constructed (empty) storage. -/
def ref (ptr : Option Addr) : ReferenceOptionalStorage :=
  match ptr with
  | some a => ReferenceOptionalStorage.init.create_value a
  | none => ReferenceOptionalStorage.init

/-- `cref(const T* ptr)` (lines 112-116): same shape as `ref`, producing an
optional reference to `const T`. -/
def cref (ptr : Option Addr) : ReferenceOptionalStorage :=
  match ptr with
  | some a => ReferenceOptionalStorage.init.create_value a
  | none => ReferenceOptionalStorage.init

/-- `copy(const optional_ref<T>&)` (lines 121-125):
`return ref.has_value() ? make_optional(ref.value()) : nullopt;`.
`make_optional(ref.value())` (modelled from the spec) copy-constructs an owned
value from the pointee's current value; copy construction reads but never
writes the source, so the memory is returned unchanged. -/
def copy (r : ReferenceOptionalStorage) (m : Mem α) :
    OptionalValue α × Mem α :=
  match r.pointer_ with
  | some a => (some (m a), m)
  | none => (none, m)

/-- `move(const optional_ref<T>&)` (lines 130-136):
`return ref.has_value() ? make_optional(std::move(ref.value())) : nullopt;`.
`make_optional(std::move(ref.value()))` (modelled from the spec) move-constructs
an owned value from the pointee, leaving the pointee in a moved-from state; no
other object is touched. -/
def move (r : ReferenceOptionalStorage) (m : Mem (MVal β)) :
    OptionalValue (MVal β) × Mem (MVal β) :=
  match r.pointer_ with
  | some a => (some (m a), Function.update m a MVal.moved)
  | none => (none, m)

/-- A storage with a null `pointer_` has `pointer_ = none`. -/
theorem pointer_eq_none_of_not_has_value (s : ReferenceOptionalStorage)
    (h : s.has_value = false) : s.pointer_ = none := by
  cases hp : s.pointer_ with
  | none => rfl
  | some b => simp [ReferenceOptionalStorage.has_value, hp] at h

/-- Claim C1: assigning an lvalue `y` to any optional-reference (empty or
bound) rebinds it — afterwards `has_value()` is true and the held reference is
identity-equal to `y` — assigning null empties it, and in neither case is the
value of any object in memory changed. -/
theorem assign_rebinds (st : ReferenceOptionalStorage) (m : Mem α) (y : Addr) :
    (assign st m y).1.has_value = true
    ∧ (assign st m y).1.get_value = some y
    ∧ (assign st m y).2 = m
    ∧ (assign_null st m).1.has_value = false
    ∧ (assign_null st m).2 = m := by
  simp [assign, assign_null, ReferenceOptionalStorage.create_value,
    ReferenceOptionalStorage.create_value_null,
    ReferenceOptionalStorage.destroy_value,
    ReferenceOptionalStorage.has_value, ReferenceOptionalStorage.get_value]

/-- Claim C2: `ref p` (and `cref p`) is empty iff `p` is null; for non-null
`p = some o` the result is bound and its value is identity-equal to the
pointee `o`. -/
theorem ref_cref_spec (p : Option Addr) (o : Addr) :
    ((ref p).has_value = false ↔ p = none)
    ∧ (ref (some o)).has_value = true
    ∧ (ref (some o)).get_value = some o
    ∧ ((cref p).has_value = false ↔ p = none)
    ∧ (cref (some o)).has_value = true
    ∧ (cref (some o)).get_value = some o := by
  cases p <;>
    simp [ref, cref, ReferenceOptionalStorage.init,
      ReferenceOptionalStorage.create_value, ReferenceOptionalStorage.has_value,
      ReferenceOptionalStorage.get_value]

/-- Claim C3: `copy` of an empty optional-reference is the empty owning
optional; `copy` of one bound to address `a` is an owning optional holding the
current value `m a` of the pointee (a value of its own, not an alias), and the
memory — in particular the pointee — is unchanged in both cases. -/
theorem copy_spec (r s : ReferenceOptionalStorage) (m : Mem α) (a : Addr)
    (hr : r.pointer_ = some a) (hs : s.has_value = false) :
    (copy r m).1 = some (m a)
    ∧ (copy r m).2 = m
    ∧ (copy s m).1 = none
    ∧ (copy s m).2 = m := by
  have hs' := pointer_eq_none_of_not_has_value s hs
  simp [copy, hr, hs']

/-- Witness for C3 at a concrete bound and a concrete empty optional-reference. -/
theorem copy_spec_witness :
    (copy (⟨some 0⟩ : ReferenceOptionalStorage) (fun _ => (5 : Nat))).1 = some 5
    ∧ (copy (⟨some 0⟩ : ReferenceOptionalStorage) (fun _ => (5 : Nat))).2
        = (fun _ => (5 : Nat))
    ∧ (copy (⟨none⟩ : ReferenceOptionalStorage) (fun _ => (5 : Nat))).1 = none
    ∧ (copy (⟨none⟩ : ReferenceOptionalStorage) (fun _ => (5 : Nat))).2
        = (fun _ => (5 : Nat)) :=
  copy_spec ⟨some 0⟩ ⟨none⟩ (fun _ => (5 : Nat)) 0 rfl rfl

/-- Claim C4: `move` of an empty optional-reference is the empty owning
optional; `move` of one bound to address `a` is an owning optional holding a
value move-constructed from the pointee (its pre-move value `m a`), the
pointee is left in a moved-from state, and no other object is changed. -/
theorem move_spec (r s : ReferenceOptionalStorage) (m : Mem (MVal β))
    (a b : Addr) (hr : r.pointer_ = some a) (hs : s.has_value = false)
    (hb : b ≠ a) :
    (move r m).1 = some (m a)
    ∧ (move r m).2 a = MVal.moved
    ∧ (move r m).2 b = m b
    ∧ (move s m).1 = none
    ∧ (move s m).2 = m := by
  have hs' := pointer_eq_none_of_not_has_value s hs
  refine ⟨?_, ?_, ?_, ?_, ?_⟩ <;>
    simp [move, hr, hs', Function.update_same, Function.update_noteq hb]

/-- Witness for C4 at a concrete bound and a concrete empty optional-reference. -/
theorem move_spec_witness :
    (move (⟨some 0⟩ : ReferenceOptionalStorage)
        (fun _ => MVal.val (7 : Nat))).1 = some (MVal.val 7)
    ∧ (move (⟨some 0⟩ : ReferenceOptionalStorage)
        (fun _ => MVal.val (7 : Nat))).2 0 = MVal.moved
    ∧ (move (⟨some 0⟩ : ReferenceOptionalStorage)
        (fun _ => MVal.val (7 : Nat))).2 1 = MVal.val 7
    ∧ (move (⟨none⟩ : ReferenceOptionalStorage)
        (fun _ => MVal.val (7 : Nat))).1 = none
    ∧ (move (⟨none⟩ : ReferenceOptionalStorage)
        (fun _ => MVal.val (7 : Nat))).2 = (fun _ => MVal.val (7 : Nat)) :=
  move_spec ⟨some 0⟩ ⟨none⟩ (fun _ => MVal.val (7 : Nat)) 0 1 rfl rfl
    (by decide)

/-- Claim C5: binding a temporary is rejected at compile time — no
`create_value` overload (and hence no `optional_ref` construction or
assignment, which delegate to it) accepts an rvalue of the referenced type —
and `move` fails to compile whenever the referenced type is const-qualified;
both are encoded as static acceptance facts, not runtime checks. -/
theorem compile_time_rejection (t : RefTarget) (ht : t.isConst = true) :
    create_value_accepts CreateValueArg.rvalue = false
    ∧ optional_ref_accepts CreateValueArg.rvalue = false
    ∧ move_compiles t = false := by
  simp [create_value_accepts, optional_ref_accepts, move_compiles, ht]

/-- Witness for C5 at a concrete const-qualified referenced type. -/
theorem compile_time_rejection_witness :
    create_value_accepts CreateValueArg.rvalue = false
    ∧ optional_ref_accepts CreateValueArg.rvalue = false
    ∧ move_compiles ⟨0, true⟩ = false :=
  compile_time_rejection ⟨0, true⟩ rfl

/-- Claim C6: cross-instance binding is one-directional mutable-to-const. The
converting `create_value` is enabled from the non-const instantiation into the
const one of the same base type, never from a const-qualified source; whenever
it is enabled between two distinct instantiations the receiver is const and
the source the non-const version of it; and semantically the receiver ends up
aliasing exactly the source's object. -/
theorem cross_binding_one_directional
    (st src : ReferenceOptionalStorage) (a : Addr) (b : Nat)
    (t u t2 u2 : RefTarget)
    (hsrc : src.pointer_ = some a)
    (hu : u.isConst = true)
    (hen : cross_create_enabled t2 u2 = true)
    (hne : t2 ≠ u2) :
    cross_create_enabled ⟨b, true⟩ ⟨b, false⟩ = true
    ∧ cross_create_enabled t u = false
    ∧ (t2.isConst = true ∧ u2 = removeConst t2)
    ∧ (st.create_value_cross src).pointer_ = some a := by
  have hu2 : u2 = removeConst t2 := by
    simpa [cross_create_enabled] using hen
  refine ⟨?_, ?_, ⟨?_, hu2⟩, ?_⟩
  · simp [cross_create_enabled, removeConst]
  · simp only [cross_create_enabled, decide_eq_false_iff_not]
    intro hEq
    rw [hEq] at hu
    simp [removeConst] at hu
  · rcases t2 with ⟨bb, cc⟩
    cases cc with
    | true => rfl
    | false => exact absurd (hu2.symm) hne
  · simp [ReferenceOptionalStorage.create_value_cross,
      ReferenceOptionalStorage.has_value, hsrc]

/-- Witness for C6 at concrete instantiations and a concrete bound source. -/
theorem cross_binding_one_directional_witness :
    cross_create_enabled ⟨0, true⟩ ⟨0, false⟩ = true
    ∧ cross_create_enabled ⟨1, false⟩ ⟨1, true⟩ = false
    ∧ ((⟨2, true⟩ : RefTarget).isConst = true
        ∧ (⟨2, false⟩ : RefTarget) = removeConst ⟨2, true⟩)
    ∧ ((⟨none⟩ : ReferenceOptionalStorage).create_value_cross
        ⟨some 3⟩).pointer_ = some 3 :=
  cross_binding_one_directional ⟨none⟩ ⟨some 3⟩ 3 0 ⟨1, false⟩ ⟨1, true⟩
    ⟨2, true⟩ ⟨2, false⟩ rfl rfl (by decide) (by decide)

/-- Claim C7: `get_value_or fb` returns a reference identity-equal to the
bound target when bound and to the fallback when empty, so writing through the
returned reference updates exactly the right object (the bound one resp. the
fallback) and no other. -/
theorem get_value_or_spec (st e : ReferenceOptionalStorage) (m : Mem α)
    (a fb c : Addr) (x : α)
    (hst : st.pointer_ = some a) (he : e.has_value = false)
    (hca : c ≠ a) (hcf : c ≠ fb) :
    st.get_value_or fb = a
    ∧ e.get_value_or fb = fb
    ∧ Function.update m (st.get_value_or fb) x a = x
    ∧ Function.update m (st.get_value_or fb) x c = m c
    ∧ Function.update m (e.get_value_or fb) x fb = x
    ∧ Function.update m (e.get_value_or fb) x c = m c := by
  have he' := pointer_eq_none_of_not_has_value e he
  have h1 : st.get_value_or fb = a := by
    simp [ReferenceOptionalStorage.get_value_or, hst]
  have h2 : e.get_value_or fb = fb := by
    simp [ReferenceOptionalStorage.get_value_or, he']
  refine ⟨h1, h2, ?_, ?_, ?_, ?_⟩
  · rw [h1, Function.update_same]
  · rw [h1, Function.update_noteq hca]
  · rw [h2, Function.update_same]
  · rw [h2, Function.update_noteq hcf]

/-- Witness for C7 at a concrete bound and a concrete empty optional-reference. -/
theorem get_value_or_spec_witness :
    (⟨some 0⟩ : ReferenceOptionalStorage).get_value_or 1 = 0
    ∧ (⟨none⟩ : ReferenceOptionalStorage).get_value_or 1 = 1
    ∧ Function.update (fun _ => (9 : Nat))
        ((⟨some 0⟩ : ReferenceOptionalStorage).get_value_or 1) 4 0 = 4
    ∧ Function.update (fun _ => (9 : Nat))
        ((⟨some 0⟩ : ReferenceOptionalStorage).get_value_or 1) 4 2 = 9
    ∧ Function.update (fun _ => (9 : Nat))
        ((⟨none⟩ : ReferenceOptionalStorage).get_value_or 1) 4 1 = 4
    ∧ Function.update (fun _ => (9 : Nat))
        ((⟨none⟩ : ReferenceOptionalStorage).get_value_or 1) 4 2 = 9 :=
  get_value_or_spec ⟨some 0⟩ ⟨none⟩ (fun _ => (9 : Nat)) 0 1 2 4 rfl rfl
    (by decide) (by decide)

/-- Claim C8: under the precondition `has_value() = true` — equivalently, the
storage is bound to some address `a` — `get_value` safely returns the bound
target (the null-dereference branch, modelled by `none`, is unreachable);
called on an empty storage it yields the undefined-behavior marker `none`, a
precondition violation rather than a reported error. -/
theorem get_value_spec (st e : ReferenceOptionalStorage) (a : Addr)
    (ha : st.pointer_ = some a) (he : e.has_value = false) :
    st.has_value = true
    ∧ st.get_value = some a
    ∧ (st.get_value).isSome = true
    ∧ e.get_value = none := by
  have he' := pointer_eq_none_of_not_has_value e he
  simp [ReferenceOptionalStorage.has_value, ReferenceOptionalStorage.get_value,
    ha, he']

/-- Witness for C8 at a concrete bound and a concrete empty optional-reference. -/
theorem get_value_spec_witness :
    (⟨some 5⟩ : ReferenceOptionalStorage).has_value = true
    ∧ (⟨some 5⟩ : ReferenceOptionalStorage).get_value = some 5
    ∧ ((⟨some 5⟩ : ReferenceOptionalStorage).get_value).isSome = true
    ∧ (⟨none⟩ : ReferenceOptionalStorage).get_value = none :=
  get_value_spec ⟨some 5⟩ ⟨none⟩ 5 rfl rfl

/-- Claim C9: the converting `create_value` applied to an empty source
optional-reference leaves the receiver empty — the conversion propagates
emptiness instead of binding. -/
theorem cross_binding_empty (st src : ReferenceOptionalStorage)
    (h : src.has_value = false) :
    (st.create_value_cross src).has_value = false := by
  have h' := pointer_eq_none_of_not_has_value src h
  simp [ReferenceOptionalStorage.create_value_cross,
    ReferenceOptionalStorage.has_value, h']

/-- Witness for C9 at a concrete receiver and concrete empty source. -/
theorem cross_binding_empty_witness :
    ((⟨some 1⟩ : ReferenceOptionalStorage).create_value_cross
      ⟨none⟩).has_value = false :=
  cross_binding_empty ⟨some 1⟩ ⟨none⟩ rfl

/-- Claim C10: neither `move` nor `copy` changes the optional-reference
itself — both take it by const reference, so after the call a bound reference
still reports `has_value` and still aliases the same address — `move` changes
memory at most at the bound address (the pointee may be left moved-from),
`copy` changes no memory at all, and on an empty reference neither changes
anything. -/
theorem move_copy_frame (r s : ReferenceOptionalStorage) (m : Mem (MVal β))
    (a b : Addr) (hr : r.pointer_ = some a) (hb : b ≠ a)
    (hs : s.has_value = false) :
    r.has_value = true
    ∧ r.get_value = some a
    ∧ (move r m).2 b = m b
    ∧ (copy r m).2 = m
    ∧ (move s m).2 = m
    ∧ (copy s m).2 = m := by
  have hs' := pointer_eq_none_of_not_has_value s hs
  refine ⟨?_, ?_, ?_, ?_, ?_, ?_⟩ <;>
    simp [move, copy, ReferenceOptionalStorage.has_value,
      ReferenceOptionalStorage.get_value, hr, hs',
      Function.update_noteq hb]

/-- Witness for C10 at a concrete bound and a concrete empty optional-reference. -/
theorem move_copy_frame_witness :
    (⟨some 2⟩ : ReferenceOptionalStorage).has_value = true
    ∧ (⟨some 2⟩ : ReferenceOptionalStorage).get_value = some 2
    ∧ (move (⟨some 2⟩ : ReferenceOptionalStorage)
        (fun _ => MVal.val (3 : Nat))).2 0 = MVal.val 3
    ∧ (copy (⟨some 2⟩ : ReferenceOptionalStorage)
        (fun _ => MVal.val (3 : Nat))).2 = (fun _ => MVal.val (3 : Nat))
    ∧ (move (⟨none⟩ : ReferenceOptionalStorage)
        (fun _ => MVal.val (3 : Nat))).2 = (fun _ => MVal.val (3 : Nat))
    ∧ (copy (⟨none⟩ : ReferenceOptionalStorage)
        (fun _ => MVal.val (3 : Nat))).2 = (fun _ => MVal.val (3 : Nat)) :=
  move_copy_frame ⟨some 2⟩ ⟨none⟩ (fun _ => MVal.val (3 : Nat)) 2 0 rfl
    (by decide) rfl

end TypeSafe
